import Mathlib

/-!
Shallow embedding of the command-to-transaction pipeline of the
solana-gpt-wallet repository, together with theorems settling the spec
claims about it.

Sources embedded:
* `src/components/WalletDashboard.tsx` — dashboard state, `validateTransaction`,
  `executeTransaction`, `handleSubmit`, the confirm/cancel callbacks.
* `pages/api/execute-swap.ts` — the swap-build API handler.
* `pages/api/execute-transaction.ts` — the agent-signed execution API handler
  (module-level `gptService` singleton).

Modelling conventions:
* JavaScript numbers are modelled as `ℚ`; where the exact IEEE-754 double
  behaviour matters (the lamports conversion `Math.floor(amount * LAMPORTS_PER_SOL)`),
  a faithful round-to-nearest-even binary64 rounding function `roundF` on `ℚ`
  is used, so `roundF q` is the exact value of the double nearest to `q`.
* External collaborators (RPC client, wallet adapter, swap builder, GPT
  service) are modelled by explicit outcome parameters; the list of network
  calls actually issued is returned alongside the new state.
* React `useState` setters are modelled as functional record updates on a
  `DashState` record; a callback closure reads the state captured at the
  time the handler ran, which the functional model reproduces.
* String rendering of numbers inside error-detail strings (`toFixed`,
  template interpolation) is abstracted by `toString` on `ℚ`; no claim
  depends on the digit-level rendering.
-/

/-- JavaScript truthiness of an optional number field (`undefined` and `0`
are falsy; `NaN` does not arise in the rational model). -/
def jsTruthyNum : Option ℚ → Bool
  | none => false
  | some x => x ≠ 0

/-- JavaScript truthiness of an optional string field (`undefined` and the
empty string are falsy). -/
def jsTruthyStr : Option String → Bool
  | none => false
  | some s => s ≠ ""

/-- Action kinds of a `WalletCommand`, from the `action` union type in
`WalletDashboard.tsx`. -/
inductive ActionKind where
  | send
  | receive
  | check_balance
  | ask_address
  | confirm_transaction
  | show_history
  | swap
deriving DecidableEq

/-- The `WalletCommand` interface returned by the process-command API route. -/
structure WalletCommand where
  action : ActionKind
  amount : Option ℚ := none
  toAddress : Option String := none
  fromToken : Option String := none
  toToken : Option String := none
  message : String := ""
  requiresConfirmation : Option Bool := none
  needsMoreInfo : Option Bool := none
  formattedAmount : Option String := none
  error : Option String := none
deriving DecidableEq

/-- Severity of a surfaced `TransactionError` in the dashboard. -/
inductive ErrorType where
  | error
  | warning
deriving DecidableEq

/-- The `TransactionError` record shown in the dashboard error banner. -/
structure TransactionError where
  type : ErrorType
  message : String
  details : Option String := none
deriving DecidableEq

/-- Dashboard component state: the `useState` variables of `WalletDashboard`
that the pipeline reads or writes. -/
structure DashState where
  balance : ℚ := 0
  usdcBalance : ℚ := 0
  pendingTransaction : Option WalletCommand := none
  transactionError : Option TransactionError := none
  transactionInProgress : Bool := false
  response : String := ""
  input : String := ""
  processing : Bool := false
  isTyping : Bool := false
  recentTransactions : List String := []
deriving DecidableEq

/-- Detail string of the insufficient-balance error; numeric rendering
(`toFixed(4)`) is abstracted by `toString`. -/
def insufficientBalanceDetails (amount balance : ℚ) : String :=
  "You need " ++ toString amount ++ " SOL but only have " ++ toString balance ++ " SOL"

/-- The `validateTransaction` callback of `WalletDashboard.tsx` (lines
176–197). It checks only the amount against zero and against the current
balance; the boolean result is paired with the `TransactionError` that the
code passes to `setTransactionError` on failure (`none` on success, where
the code leaves the error state untouched). -/
def validateTransaction (amount balance : ℚ) : Bool × Option TransactionError :=
  if amount ≤ 0 then
    (false, some { type := .error, message := "Invalid amount",
                   details := some "Amount must be greater than 0" })
  else if balance < amount then
    (false, some { type := .error, message := "Insufficient balance",
                   details := some (insufficientBalanceDetails amount balance) })
  else
    (true, none)

/-! Exact model of IEEE-754 binary64 rounding on positive rationals, used
for the lamports conversion `Math.floor(command.amount * LAMPORTS_PER_SOL)`.
Subnormals and overflow are irrelevant at the magnitudes involved. -/

/-- Fuel-bounded floor of the base-2 logarithm of a natural number
(`log2floorAux fuel n = ⌊log₂ n⌋` for `1 ≤ n < 2 ^ fuel`). -/
def log2floorAux : Nat → Nat → Nat
  | 0, _ => 0
  | f + 1, n => if n < 2 then 0 else log2floorAux f (n / 2) + 1

/-- Floor of the base-2 logarithm of a natural number (values involved here
are far below `2 ^ 200`). -/
def log2floorNat (n : Nat) : Nat := log2floorAux 200 n

/-- Floor of the base-2 logarithm of a positive rational: the unique `e`
with `2 ^ e ≤ q < 2 ^ (e + 1)`. -/
def log2floorQ (q : ℚ) : ℤ :=
  let n := q.num.toNat
  let d := q.den
  if d ≤ n then (log2floorNat (n / d) : ℤ)
  else
    let m := log2floorNat (d / n)
    if n * 2 ^ m = d then -(m : ℤ) else -((m : ℤ) + 1)

/-- Round a positive rational to the nearest multiple of `2 ^ (e - 52)`
(ties to even), where `e = ⌊log₂ q⌋`: the binary64 significand grid. The
result is assembled with `mkRat` so that it evaluates inside the kernel. -/
def roundPos (q : ℚ) : ℚ :=
  let e := log2floorQ q
  let s := e - 52
  let n := q.num.toNat
  let d := q.den
  let num := if s ≤ 0 then n * 2 ^ (-s).toNat else n
  let den := if s ≤ 0 then d else d * 2 ^ s.toNat
  let k0 := num / den
  let r := num % den
  let k := if 2 * r < den then k0
           else if den < 2 * r then k0 + 1
           else if k0 % 2 = 0 then k0 else k0 + 1
  if s ≤ 0 then mkRat (k : ℤ) (2 ^ (-s).toNat)
  else mkRat ((k : ℤ) * 2 ^ s.toNat) 1

/-- Round a rational to the exact value of the nearest IEEE-754 binary64
value (round to nearest, ties to even). -/
def roundF (q : ℚ) : ℚ :=
  if q = 0 then 0
  else if q < 0 then -roundPos (-q) else roundPos q

/-- The `LAMPORTS_PER_SOL` constant (`10 ^ 9`), exactly representable as a
double. -/
def LAMPORTS_PER_SOL : ℚ := 10 ^ 9

/-- The lamports computation of `executeTransaction` (line 245):
`Math.floor(command.amount * LAMPORTS_PER_SOL)`, where `amount` is the exact
value of a double and the double product is rounded before flooring. -/
def solToLamports (amount : ℚ) : ℤ :=
  (roundF (amount * LAMPORTS_PER_SOL)).floor

/-- Multiplying a rational by an integer, written in the `mkRat` form that
the kernel can evaluate. -/
lemma mkRat_mul_int (a : ℚ) (n : ℤ) : mkRat (a.num * n) a.den = a * (n : ℚ) := by
  rw [Rat.mkRat_eq_div]
  push_cast
  rw [mul_div_right_comm, Rat.num_div_den]

/-- Kernel-evaluable form of `solToLamports`. -/
lemma solToLamports_compute (a : ℚ) :
    solToLamports a = (roundF (mkRat (a.num * (10 ^ 9 : ℤ)) a.den)).floor := by
  rw [solToLamports, mkRat_mul_int, LAMPORTS_PER_SOL]
  norm_num

/-- The JavaScript `String.prototype.trim`, modelled on the character
list: whitespace stripped from both ends. -/
def strTrim (s : String) : String :=
  String.mk (((s.data.dropWhile Char.isWhitespace).reverse.dropWhile Char.isWhitespace).reverse)

/-! Dashboard operations of `WalletDashboard.tsx`. External calls are
resolved by outcome parameters; the network calls actually made are
reported next to the resulting state. -/

/-- Network calls the dashboard can issue while executing a transfer. -/
inductive NetCall where
  | getLatestBlockhash
  | sendTransaction
  | getBalance
  | getSignaturesForAddress
deriving DecidableEq

/-- The `SystemProgram.transfer` instruction built by `executeTransaction`
(lines 241–247). -/
structure TransferInstruction where
  fromPubkey : String
  toPubkey : String
  lamports : ℤ
deriving DecidableEq

/-- Resolution of the fallible steps inside the `try` block of
`executeTransaction`: `new PublicKey(toAddress)` may throw (`parseFail`),
`getLatestBlockhash` may throw (`blockhashFail`), `sendTransaction` may
throw (`sendFail`), or the broadcast succeeds and the subsequent
`updateBalance` / `fetchRecentTransactions` refreshes report new values.
The thrown message is the one produced by `handleSolanaError`, whose module
is not among the sources; per the spec it surfaces the underlying
diagnostic, so it is carried verbatim. -/
inductive TryOutcome where
  | parseFail (msg : String)
  | blockhashFail (msg : String)
  | sendFail (msg : String)
  | success (signature : String) (newBalance : ℚ) (newTxs : List String)
deriving DecidableEq

/-- Result of running `executeTransaction`: the new dashboard state, the
network calls issued, and the transfer instruction if one was built. -/
structure ExecResult where
  state : DashState
  networkCalls : List NetCall
  builtTransaction : Option TransferInstruction
deriving DecidableEq

/-- The dashboard state updates shared by every exit of the `try` block:
the `finally` clause of `executeTransaction` (lines 263–266) resets the
in-progress flag and clears the pending transaction. -/
def execFinally (s : DashState) : DashState :=
  { s with transactionInProgress := false, pendingTransaction := none }

/-- The `TransactionError` set in the `catch` clause of
`executeTransaction` (lines 256–262). -/
def executionFailedError (msg : String) : TransactionError :=
  { type := .error, message := "Transaction failed", details := some msg }

/-- The `executeTransaction` function of `WalletDashboard.tsx` (lines
229–267). Guard: missing wallet, address or amount returns unchanged.
Re-validation failure clears the pending transaction and returns before
any network call. Otherwise the in-progress flag is set, the self-transfer
check throws before the transfer is built, and every `catch` path runs the
`finally` clause. -/
def executeTransaction (publicKey : Option String) (command : WalletCommand)
    (outcome : TryOutcome) (s : DashState) : ExecResult :=
  if publicKey = none ∨ ¬ jsTruthyStr command.toAddress ∨ ¬ jsTruthyNum command.amount then
    ⟨s, [], none⟩
  else
    let amount := command.amount.getD 0
    let v := validateTransaction amount s.balance
    if ¬ v.1 then
      ⟨{ s with transactionError := v.2, pendingTransaction := none }, [], none⟩
    else
      let pk := publicKey.getD ""
      let toAddr := command.toAddress.getD ""
      let s1 := { s with transactionInProgress := true }
      let selfErr := executionFailedError "Cannot send SOL to your own address"
      let selfAbort : ExecResult :=
        ⟨execFinally { s1 with transactionError := some selfErr }, [], none⟩
      match outcome with
      | .parseFail msg =>
          ⟨execFinally { s1 with transactionError := some (executionFailedError msg) }, [], none⟩
      | .blockhashFail msg =>
          if toAddr = pk then selfAbort
          else
            ⟨execFinally { s1 with transactionError := some (executionFailedError msg) },
             [.getLatestBlockhash],
             some ⟨pk, toAddr, solToLamports amount⟩⟩
      | .sendFail msg =>
          if toAddr = pk then selfAbort
          else
            ⟨execFinally { s1 with transactionError := some (executionFailedError msg) },
             [.getLatestBlockhash, .sendTransaction],
             some ⟨pk, toAddr, solToLamports amount⟩⟩
      | .success sig newBalance newTxs =>
          if toAddr = pk then selfAbort
          else
            ⟨execFinally { s1 with
                response := "Transaction sent! Signature: " ++ sig,
                balance := newBalance,
                recentTransactions := newTxs },
             [.getLatestBlockhash, .sendTransaction, .getBalance, .getSignaturesForAddress],
             some ⟨pk, toAddr, solToLamports amount⟩⟩

/-- The `onConfirmTransaction` callback (lines 270–274): runs
`executeTransaction` on the pending transaction, if any. -/
def onConfirmTransaction (publicKey : Option String) (outcome : TryOutcome)
    (s : DashState) : ExecResult :=
  match s.pendingTransaction with
  | some command => executeTransaction publicKey command outcome s
  | none => ⟨s, [], none⟩

/-- The `onCancel` callback passed to `TransactionConfirmation` (lines
554–557): clears the pending transaction and sets the response message.
No network call is made, which the empty call list records. -/
def onCancel (s : DashState) : DashState × List NetCall :=
  ({ s with pendingTransaction := none,
            response := "Transaction cancelled by user." }, [])

/-- Resolution of the external calls made by `handleSubmit`: the
process-command API response (or a thrown error), and the values reported
by the balance/history refresh helpers on the non-send branches. -/
structure SubmitEnv where
  gptResult : Except String WalletCommand
  newBalance : ℚ := 0
  newUsdc : ℚ := 0
  newTxs : List String := []

/-- The `handleSubmit` function of `WalletDashboard.tsx` (lines 276–318).
Only `send` commands can create a pending transaction, and only after
`validateTransaction` passes; `check_balance` and `show_history` refresh
from the environment; a classifier-reported `error` field is surfaced as a
warning; the `finally` clause clears the input using the `pendingTransaction`
value captured when the handler was created (the pre-call state). -/
def handleSubmit (publicKey : Option String) (env : SubmitEnv) (s : DashState) : DashState :=
  if strTrim s.input = "" ∨ publicKey = none then s
  else
    let s1 := { s with processing := true, isTyping := true, transactionError := none }
    let s2 :=
      match env.gptResult with
      | .error e =>
          { s1 with response := "Sorry, I encountered an error processing your request.",
                    transactionError := some { type := .error, message := "Processing Error",
                                               details := some e } }
      | .ok g =>
          let sA :=
            if g.action = ActionKind.send then
              if jsTruthyNum g.amount ∧ jsTruthyStr g.toAddress then
                let v := validateTransaction (g.amount.getD 0) s1.balance
                if v.1 then { s1 with pendingTransaction := some g }
                else { s1 with transactionError := v.2 }
              else s1
            else if g.action = ActionKind.check_balance then
              { s1 with balance := env.newBalance, usdcBalance := env.newUsdc }
            else if g.action = ActionKind.show_history then
              { s1 with recentTransactions := env.newTxs }
            else s1
          let sB :=
            match g.error with
            | some w => { sA with transactionError := some { type := .warning, message := w } }
            | none => sA
          { sB with response := g.message }
    let s3 := { s2 with isTyping := false, processing := false }
    if s.pendingTransaction = none then { s3 with input := "" } else s3

/-! The swap-build API handler of `pages/api/execute-swap.ts`. -/

/-- Substring test on character lists, used to model
`error.message.includes(...)`. -/
def listContainsSub : List Char → List Char → Bool
  | [], p => p.isEmpty
  | l@(_ :: t), p => p.isPrefixOf l || listContainsSub t p

/-- The JavaScript `String.prototype.includes` test. -/
def strContainsSub (s pat : String) : Bool :=
  listContainsSub s.toList pat.toList

/-- Response of the execute-swap API route: HTTP status plus the
`SwapResponse` body fields. -/
structure SwapResponse where
  status : ℕ
  swapTransaction : Option String := none
  message : Option String := none
  error : Option String := none
deriving DecidableEq

/-- The execute-swap handler (`pages/api/execute-swap.ts`, lines 11–62).
The outcome of `GPTService.buildSwapTransaction` (whose module is not among
the sources) is an explicit parameter: either the serialized unsigned
transaction or a thrown error message. A thrown message containing
`"No swap routes found"` is converted to a 200 response with no transaction
and a recoverable error string; any other throw becomes a 500. -/
def executeSwapHandler (method : String) (fromToken toToken : Option String)
    (amount : Option ℚ) (walletAddress : Option String)
    (build : Except String String) : SwapResponse :=
  if method ≠ "POST" then { status := 405, error := some "Method not allowed" }
  else if ¬ jsTruthyNum amount ∨ ¬ jsTruthyStr fromToken ∨ ¬ jsTruthyStr toToken
          ∨ ¬ jsTruthyStr walletAddress then
    { status := 400, error := some "Missing parameters" }
  else
    match build with
    | .ok serializedTx =>
        { status := 200, swapTransaction := some serializedTx,
          message := some "Swap transaction prepared successfully" }
    | .error e =>
        if strContainsSub e "No swap routes found" then
          { status := 200, swapTransaction := none,
            error := some "No swap routes found. Please try a higher amount or a different token pair." }
        else
          { status := 500, error := some e }

/-! The agent-signed execution API handler of
`pages/api/execute-transaction.ts` (provided among the unnamed sources). -/

/-- Constructor arguments captured by the module-level `GPTService`
singleton of the execute-transaction route. -/
structure GPTServiceCfg where
  openaiApiKey : String
  rpcUrl : Option String
  agentPrivateKey : Option String
deriving DecidableEq

/-- Response of the execute-transaction API route. -/
structure ExecuteResponse where
  status : ℕ
  signature : Option String := none
  error : Option String := none
deriving DecidableEq

/-- Result of one execute-transaction request: the response, the
module-level singleton after the call, and the `executeSend` invocations
that were actually dispatched. -/
structure ExecHandlerResult where
  response : ExecuteResponse
  gptService : Option GPTServiceCfg
  sends : List (ℚ × String)
deriving DecidableEq

/-- The `executeSend` dispatch at the end of the handler: the send is
performed and its outcome (signature or thrown error message) is mapped to
the HTTP response. -/
def execSendStep (svc : GPTServiceCfg) (amount : ℚ) (toAddress : String)
    (sendResult : Except String String) : ExecHandlerResult :=
  match sendResult with
  | .ok sig => ⟨{ status := 200, signature := some sig }, some svc, [(amount, toAddress)]⟩
  | .error e => ⟨{ status := 500, error := some e }, some svc, [(amount, toAddress)]⟩

/-- The execute-transaction handler (unnamed source `part_000`, lines
13–63). `gptService` is the module-level singleton before the request;
`agentPrivateKeyEnv` is `process.env.AGENT_PRIVATE_KEY`. On first use the
service is initialized only when the agent key is configured — a missing
key throws `"Agent private key is required"` before any service exists —
and the agent balance fetched during initialization must cover
`0.001 * LAMPORTS_PER_SOL`; note the singleton is assigned before that
balance check, so it survives a balance-check throw. -/
def executeTransactionHandler (agentPrivateKeyEnv openaiKeyEnv rpcUrlEnv : Option String)
    (gptService : Option GPTServiceCfg) (method : String)
    (amount : Option ℚ) (toAddress : Option String)
    (agentBalanceLamports : ℚ) (sendResult : Except String String) : ExecHandlerResult :=
  if method ≠ "POST" then
    ⟨{ status := 405, error := some "Method not allowed" }, gptService, []⟩
  else if ¬ jsTruthyNum amount ∨ ¬ jsTruthyStr toAddress then
    ⟨{ status := 400, error := some "Missing parameters" }, gptService, []⟩
  else
    let a := amount.getD 0
    let dest := toAddress.getD ""
    match gptService with
    | some svc => execSendStep svc a dest sendResult
    | none =>
        if ¬ jsTruthyStr agentPrivateKeyEnv then
          ⟨{ status := 500, error := some "Agent private key is required" }, none, []⟩
        else
          let svc : GPTServiceCfg :=
            ⟨openaiKeyEnv.getD "", rpcUrlEnv, agentPrivateKeyEnv⟩
          if agentBalanceLamports < 1 / 1000 * LAMPORTS_PER_SOL then
            ⟨{ status := 500,
               error := some "Insufficient agent wallet balance. Please fund the agent wallet." },
             some svc, []⟩
          else
            execSendStep svc a dest sendResult

/-! Theorems settling the claims. -/

/-- Validation either succeeds cleanly or fails carrying an error record. -/
lemma validateTransaction_cases (a b : ℚ) :
    validateTransaction a b = (true, none) ∨
    ∃ e, validateTransaction a b = (false, some e) := by
  unfold validateTransaction
  split
  · exact Or.inr ⟨_, rfl⟩
  · split
    · exact Or.inr ⟨_, rfl⟩
    · exact Or.inl rfl

/-- C6: for every amount `a ≤ 0` and every balance, `validateTransaction`
returns the Invalid-amount failure; the positivity check is applied before
the balance check, so the result is the Invalid-amount error (never the
Insufficient-balance one) even when `a` also exceeds the balance. -/
theorem C6_invalid_amount_checked_first (a balance : ℚ) (h : a ≤ 0) :
    validateTransaction a balance =
      (false, some { type := .error, message := "Invalid amount",
                     details := some "Amount must be greater than 0" }) := by
  unfold validateTransaction
  rw [if_pos h]

/-- Witness for C6 at `a = -1`, `balance = -2`, so that `a` also exceeds
the balance yet the result is still the Invalid-amount error. -/
theorem C6_invalid_amount_checked_first_witness :
    ((-1 : ℚ) ≤ 0) ∧
    validateTransaction (-1) (-2) =
      (false, some { type := .error, message := "Invalid amount",
                     details := some "Amount must be greater than 0" }) :=
  ⟨by norm_num, C6_invalid_amount_checked_first (-1) (-2) (by norm_num)⟩

/-- C10: `cancel()` on a Proposed transaction clears the pending
transaction and makes no network call, and a second `cancel()` immediately
afterwards produces exactly the same observable result as the first: the
second call is a no-op. -/
theorem C10_cancel_clears_and_is_idempotent (s : DashState) (command : WalletCommand)
    (hpend : s.pendingTransaction = some command) :
    (onCancel s).1.pendingTransaction = none ∧
    (onCancel s).2 = [] ∧
    onCancel (onCancel s).1 = onCancel s :=
  ⟨rfl, rfl, rfl⟩

/-- Witness for C10 on a concrete Proposed state. -/
theorem C10_cancel_clears_and_is_idempotent_witness :
    ({ pendingTransaction := some { action := ActionKind.send } } : DashState).pendingTransaction =
      some { action := ActionKind.send } ∧
    ((onCancel { pendingTransaction := some { action := ActionKind.send } }).1.pendingTransaction = none ∧
     (onCancel { pendingTransaction := some { action := ActionKind.send } }).2 = [] ∧
     onCancel (onCancel { pendingTransaction := some { action := ActionKind.send } }).1 =
       onCancel { pendingTransaction := some { action := ActionKind.send } }) :=
  ⟨rfl, C10_cancel_clears_and_is_idempotent _ _ rfl⟩

/-- C5: a `send` whose amount exceeds the current balance (with a positive
amount) fails validation with the Insufficient-balance error and no pending
transaction is created: `handleSubmit` leaves the pending slot exactly as
it was. -/
theorem C5_insufficient_balance_no_pending
    (publicKey : Option String) (env : SubmitEnv) (s : DashState)
    (g : WalletCommand) (a : ℚ)
    (hg : env.gptResult = Except.ok g)
    (haction : g.action = ActionKind.send)
    (hamt : g.amount = some a)
    (haddr : jsTruthyStr g.toAddress = true)
    (hpos : 0 < a)
    (hbal : s.balance < a)
    (herr : g.error = none)
    (hin : strTrim s.input ≠ "")
    (hpk : publicKey ≠ none) :
    (handleSubmit publicKey env s).pendingTransaction = s.pendingTransaction ∧
    (handleSubmit publicKey env s).transactionError =
      some { type := .error, message := "Insufficient balance",
             details := some (insufficientBalanceDetails a s.balance) } := by
  have hne : a ≠ 0 := ne_of_gt hpos
  have hguard : ¬ (strTrim s.input = "" ∨ publicKey = none) := by
    rintro (h | h)
    · exact hin h
    · exact hpk h
  have hvf : validateTransaction a s.balance =
      (false, some { type := .error, message := "Insufficient balance",
                     details := some (insufficientBalanceDetails a s.balance) }) := by
    unfold validateTransaction
    rw [if_neg (not_le.mpr hpos), if_pos hbal]
  have hja : jsTruthyNum (some a) = true := by simp [jsTruthyNum, hne]
  unfold handleSubmit
  rw [if_neg hguard]
  simp only [hg, haction, hamt, herr, Option.getD_some, hja, haddr, hvf]
  simp only [eq_self_iff_true, and_self, if_true, Bool.false_eq_true, if_false]
  constructor <;> split <;> rfl

/-- Witness for C5: the spec scenario, amount `0.1` against balance `0.05`. -/
theorem C5_insufficient_balance_no_pending_witness :
    (0 : ℚ) < mkRat 1 10 ∧
    ({ balance := mkRat 1 20, input := "send" } : DashState).balance < mkRat 1 10 ∧
    ((handleSubmit (some "CALLER")
        { gptResult := Except.ok { action := ActionKind.send, amount := some (mkRat 1 10),
                                   toAddress := some "DEST" } }
        { balance := mkRat 1 20, input := "send" }).pendingTransaction =
      ({ balance := mkRat 1 20, input := "send" } : DashState).pendingTransaction ∧
     (handleSubmit (some "CALLER")
        { gptResult := Except.ok { action := ActionKind.send, amount := some (mkRat 1 10),
                                   toAddress := some "DEST" } }
        { balance := mkRat 1 20, input := "send" }).transactionError =
      some { type := .error, message := "Insufficient balance",
             details := some (insufficientBalanceDetails (mkRat 1 10)
               ({ balance := mkRat 1 20, input := "send" } : DashState).balance) }) :=
  ⟨by decide, by decide,
   C5_insufficient_balance_no_pending _ _ _ _ _ rfl rfl rfl (by decide) (by decide)
     (by decide) rfl (by decide) (by decide)⟩

/-- C4: the pending slot holds at most one transaction (it is a single
`Option`-typed cell), and a new validated `send` proposal made while one is
already Proposed replaces it: `handleSubmit` overwrites the slot with the
new command, abandoning the earlier one. -/
theorem C4_new_proposal_replaces_pending
    (publicKey : Option String) (env : SubmitEnv) (s : DashState)
    (g old : WalletCommand)
    (hpend : s.pendingTransaction = some old)
    (hg : env.gptResult = Except.ok g)
    (haction : g.action = ActionKind.send)
    (hamt : jsTruthyNum g.amount = true)
    (haddr : jsTruthyStr g.toAddress = true)
    (hvalid : (validateTransaction (g.amount.getD 0) s.balance).1 = true)
    (hin : strTrim s.input ≠ "")
    (hpk : publicKey ≠ none) :
    (handleSubmit publicKey env s).pendingTransaction = some g := by
  have hguard : ¬ (strTrim s.input = "" ∨ publicKey = none) := by
    rintro (h | h)
    · exact hin h
    · exact hpk h
  cases hge : g.error <;>
    simp [handleSubmit, hguard, hg, haction, hamt, haddr, hge, hvalid, hpend]

/-- Witness for C4: a second proposal while `OLD` is pending ends with the
new command pending. -/
theorem C4_new_proposal_replaces_pending_witness :
    ({ balance := 1, input := "send",
       pendingTransaction := some { action := ActionKind.send, amount := some (mkRat 1 4),
                                    toAddress := some "OLD" } } : DashState).pendingTransaction =
      some { action := ActionKind.send, amount := some (mkRat 1 4), toAddress := some "OLD" } ∧
    (validateTransaction (((some (mkRat 1 2) : Option ℚ)).getD 0)
        ({ balance := 1, input := "send",
           pendingTransaction := some { action := ActionKind.send, amount := some (mkRat 1 4),
                                        toAddress := some "OLD" } } : DashState).balance).1 = true ∧
    (handleSubmit (some "CALLER")
        { gptResult := Except.ok { action := ActionKind.send, amount := some (mkRat 1 2),
                                   toAddress := some "NEW" } }
        { balance := 1, input := "send",
          pendingTransaction := some { action := ActionKind.send, amount := some (mkRat 1 4),
                                       toAddress := some "OLD" } }).pendingTransaction =
      some { action := ActionKind.send, amount := some (mkRat 1 2), toAddress := some "NEW" } :=
  ⟨rfl, by decide,
   C4_new_proposal_replaces_pending _ _ _ _ _ rfl rfl rfl (by decide) (by decide)
     (by decide) (by decide) (by decide)⟩

/-- C1 counterexample: a `send` whose destination equals the caller's own
address passes `validateTransaction` (which never inspects the destination)
and `handleSubmit` does install it as the pending transaction — validation
does not reject self-transfers. -/
theorem C1_self_send_becomes_pending_cex :
    (handleSubmit (some "CALLER")
        { gptResult := Except.ok { action := ActionKind.send, amount := some (mkRat 1 2),
                                   toAddress := some "CALLER" } }
        { balance := 1, input := "send" }).pendingTransaction =
      some { action := ActionKind.send, amount := some (mkRat 1 2),
             toAddress := some "CALLER" } ∧
    (validateTransaction (mkRat 1 2) 1).1 = true := by
  constructor
  · decide
  · decide

/-- C1 amended: validation does not check self-transfer, so such an intent
can become a pending transaction; the rejection happens when execution is
confirmed — `executeTransaction` throws "Cannot send SOL to your own
address" before any transfer instruction exists, so whatever the
environment would have done, no transaction is built, no network call is
made, and the pending transaction is cleared. -/
theorem C1_self_send_rejected_at_execution
    (publicKey : Option String) (command : WalletCommand) (outcome : TryOutcome)
    (s : DashState) (p : String)
    (hpk : publicKey = some p)
    (hself : command.toAddress = some p)
    (hp : p ≠ "")
    (hamt : jsTruthyNum command.amount = true) :
    (executeTransaction publicKey command outcome s).builtTransaction = none ∧
    (executeTransaction publicKey command outcome s).networkCalls = [] ∧
    (executeTransaction publicKey command outcome s).state.pendingTransaction = none := by
  have htr : jsTruthyStr (some p) = true := by simp [jsTruthyStr, hp]
  rcases validateTransaction_cases (command.amount.getD 0) s.balance with hv | ⟨e, hv⟩ <;>
    cases outcome <;>
    simp [executeTransaction, hpk, hself, htr, hamt, hv, execFinally]

/-- Witness for C1 amended: confirming a self-addressed send builds
nothing, calls nothing, and clears the pending slot. -/
theorem C1_self_send_rejected_at_execution_witness :
    (some "CALLER" : Option String) = some "CALLER" ∧
    ("CALLER" : String) ≠ "" ∧
    jsTruthyNum (some (mkRat 1 2) : Option ℚ) = true ∧
    ((executeTransaction (some "CALLER")
        { action := ActionKind.send, amount := some (mkRat 1 2), toAddress := some "CALLER" }
        (TryOutcome.success "SIG" 1 []) { balance := 1 }).builtTransaction = none ∧
     (executeTransaction (some "CALLER")
        { action := ActionKind.send, amount := some (mkRat 1 2), toAddress := some "CALLER" }
        (TryOutcome.success "SIG" 1 []) { balance := 1 }).networkCalls = [] ∧
     (executeTransaction (some "CALLER")
        { action := ActionKind.send, amount := some (mkRat 1 2), toAddress := some "CALLER" }
        (TryOutcome.success "SIG" 1 []) { balance := 1 }).state.pendingTransaction = none) :=
  ⟨rfl, by decide, by decide,
   C1_self_send_rejected_at_execution _ _ _ _ _ rfl rfl (by decide) (by decide)⟩

/-- C7: confirming a pending send re-runs `validateTransaction` against the
balance in the state at confirmation time; when that re-validation fails,
`executeTransaction` clears the pending transaction, surfaces the
validation error, and returns having made no network call and built no
transaction. -/
theorem C7_confirm_revalidates_against_current_balance
    (publicKey : Option String) (command : WalletCommand) (outcome : TryOutcome)
    (s : DashState)
    (hpk : publicKey ≠ none)
    (haddr : jsTruthyStr command.toAddress = true)
    (hamt : jsTruthyNum command.amount = true)
    (hfail : (validateTransaction (command.amount.getD 0) s.balance).1 = false) :
    executeTransaction publicKey command outcome s =
      ⟨{ s with transactionError := (validateTransaction (command.amount.getD 0) s.balance).2,
                pendingTransaction := none }, [], none⟩ := by
  have hguard : ¬ (publicKey = none ∨ ¬ jsTruthyStr command.toAddress = true
      ∨ ¬ jsTruthyNum command.amount = true) := by
    rintro (h | h | h)
    · exact hpk h
    · exact h haddr
    · exact h hamt
  simp only [executeTransaction]
  rw [if_neg hguard, if_pos (by simp [hfail])]

/-- Witness for C7: an amount of `0.1` proposed when the balance was `1`
(validation passed then) is re-validated at confirmation against the
current balance `0.05`, fails, and aborts before any network activity. -/
theorem C7_confirm_revalidates_against_current_balance_witness :
    (validateTransaction (mkRat 1 10) (1 : ℚ)).1 = true ∧
    (validateTransaction (((some (mkRat 1 10) : Option ℚ)).getD 0)
        ({ balance := mkRat 1 20,
           pendingTransaction := some { action := ActionKind.send, amount := some (mkRat 1 10),
                                        toAddress := some "DEST" } } : DashState).balance).1 = false ∧
    executeTransaction (some "CALLER")
        { action := ActionKind.send, amount := some (mkRat 1 10), toAddress := some "DEST" }
        (TryOutcome.success "SIG" 1 [])
        { balance := mkRat 1 20,
          pendingTransaction := some { action := ActionKind.send, amount := some (mkRat 1 10),
                                       toAddress := some "DEST" } } =
      ⟨{ ({ balance := mkRat 1 20,
            pendingTransaction := some { action := ActionKind.send, amount := some (mkRat 1 10),
                                         toAddress := some "DEST" } } : DashState) with
          transactionError := (validateTransaction (((some (mkRat 1 10) : Option ℚ)).getD 0)
            (mkRat 1 20)).2,
          pendingTransaction := none }, [], none⟩ :=
  ⟨by decide, by decide,
   C7_confirm_revalidates_against_current_balance _ _ _ _ (by decide) (by decide)
     (by decide) (by decide)⟩

/-- C3: confirming from a Proposed state (a well-formed pending send, no
execution already in progress) always ends with the pending transaction
cleared and the in-progress flag off — never a stuck Executing state —
and the call completes as exactly one of Executed (broadcast succeeded,
validation and self-check passed: the response reports the signature and
no new error is raised) or Failed (an error is surfaced and the response
is untouched). -/
theorem C3_confirm_settles_and_returns_to_idle
    (publicKey : Option String) (outcome : TryOutcome) (s : DashState)
    (command : WalletCommand)
    (hpend : s.pendingTransaction = some command)
    (hpk : publicKey ≠ none)
    (haddr : jsTruthyStr command.toAddress = true)
    (hamt : jsTruthyNum command.amount = true)
    (hprog : s.transactionInProgress = false) :
    (onConfirmTransaction publicKey outcome s).state.pendingTransaction = none ∧
    (onConfirmTransaction publicKey outcome s).state.transactionInProgress = false ∧
    ((∃ sig newBalance newTxs, outcome = TryOutcome.success sig newBalance newTxs ∧
        (onConfirmTransaction publicKey outcome s).state.response =
          "Transaction sent! Signature: " ++ sig ∧
        (onConfirmTransaction publicKey outcome s).state.transactionError =
          s.transactionError) ∨
     (∃ e, (onConfirmTransaction publicKey outcome s).state.transactionError = some e ∧
        (onConfirmTransaction publicKey outcome s).state.response = s.response)) := by
  have hguard : ¬ (publicKey = none ∨ ¬ jsTruthyStr command.toAddress = true
      ∨ ¬ jsTruthyNum command.amount = true) := by
    rintro (h | h | h)
    · exact hpk h
    · exact h haddr
    · exact h hamt
  simp only [onConfirmTransaction, hpend, executeTransaction]
  rw [if_neg hguard]
  rcases validateTransaction_cases (command.amount.getD 0) s.balance with hv | ⟨e, hv⟩
  · cases outcome <;>
      by_cases hself : command.toAddress.getD "" = publicKey.getD "" <;>
        simp [hv, hself, execFinally, hprog]
  · simp [hv, hprog]

/-- Witness for C3: confirming a well-formed pending send with a successful
broadcast outcome. -/
theorem C3_confirm_settles_and_returns_to_idle_witness :
    ({ balance := 1,
       pendingTransaction := some { action := ActionKind.send, amount := some (mkRat 1 2),
                                    toAddress := some "DEST" } } : DashState).pendingTransaction =
      some { action := ActionKind.send, amount := some (mkRat 1 2), toAddress := some "DEST" } ∧
    ({ balance := 1,
       pendingTransaction := some { action := ActionKind.send, amount := some (mkRat 1 2),
                                    toAddress := some "DEST" } } : DashState).transactionInProgress
      = false ∧
    ((onConfirmTransaction (some "CALLER") (TryOutcome.success "SIG" 1 [])
        { balance := 1,
          pendingTransaction := some { action := ActionKind.send, amount := some (mkRat 1 2),
                                       toAddress := some "DEST" } }).state.pendingTransaction
        = none ∧
     (onConfirmTransaction (some "CALLER") (TryOutcome.success "SIG" 1 [])
        { balance := 1,
          pendingTransaction := some { action := ActionKind.send, amount := some (mkRat 1 2),
                                       toAddress := some "DEST" } }).state.transactionInProgress
        = false ∧
     ((∃ sig newBalance newTxs,
         TryOutcome.success "SIG" 1 ([] : List String) =
           TryOutcome.success sig newBalance newTxs ∧
         (onConfirmTransaction (some "CALLER") (TryOutcome.success "SIG" 1 [])
            { balance := 1,
              pendingTransaction := some { action := ActionKind.send, amount := some (mkRat 1 2),
                                           toAddress := some "DEST" } }).state.response =
           "Transaction sent! Signature: " ++ sig ∧
         (onConfirmTransaction (some "CALLER") (TryOutcome.success "SIG" 1 [])
            { balance := 1,
              pendingTransaction := some { action := ActionKind.send, amount := some (mkRat 1 2),
                                           toAddress := some "DEST" } }).state.transactionError =
           ({ balance := 1,
              pendingTransaction := some { action := ActionKind.send, amount := some (mkRat 1 2),
                                           toAddress := some "DEST" } } : DashState).transactionError) ∨
      (∃ e, (onConfirmTransaction (some "CALLER") (TryOutcome.success "SIG" 1 [])
            { balance := 1,
              pendingTransaction := some { action := ActionKind.send, amount := some (mkRat 1 2),
                                           toAddress := some "DEST" } }).state.transactionError =
           some e ∧
         (onConfirmTransaction (some "CALLER") (TryOutcome.success "SIG" 1 [])
            { balance := 1,
              pendingTransaction := some { action := ActionKind.send, amount := some (mkRat 1 2),
                                           toAddress := some "DEST" } }).state.response =
           ({ balance := 1,
              pendingTransaction := some { action := ActionKind.send, amount := some (mkRat 1 2),
                                           toAddress := some "DEST" } } : DashState).response))) :=
  ⟨rfl, rfl,
   C3_confirm_settles_and_returns_to_idle _ _ _ _ rfl (by decide) (by decide) (by decide) rfl⟩

/-- C8: when the swap builder reports that no route exists, the
execute-swap handler answers with HTTP 200 (a recoverable, success-status
response) carrying the no-route error message and no swap transaction —
not a fatal 500 — and no pending transaction can come into existence: the
dashboard never installs a pending transaction for a `swap` command. -/
theorem C8_no_route_is_recoverable
    (method : String) (fromToken toToken : Option String) (amount : Option ℚ)
    (walletAddress : Option String) (e : String)
    (hm : method = "POST")
    (ham : jsTruthyNum amount = true)
    (hf : jsTruthyStr fromToken = true)
    (ht : jsTruthyStr toToken = true)
    (hw : jsTruthyStr walletAddress = true)
    (hsub : strContainsSub e "No swap routes found" = true) :
    executeSwapHandler method fromToken toToken amount walletAddress (Except.error e) =
      { status := 200, swapTransaction := none, message := none,
        error := some "No swap routes found. Please try a higher amount or a different token pair." } ∧
    ∀ (publicKey : Option String) (env : SubmitEnv) (s : DashState) (g : WalletCommand),
      env.gptResult = Except.ok g → g.action = ActionKind.swap →
      (handleSubmit publicKey env s).pendingTransaction = s.pendingTransaction := by
  constructor
  · simp [executeSwapHandler, hm, ham, hf, ht, hw, hsub]
  · intro publicKey env s g hg hact
    unfold handleSubmit
    split
    · rfl
    · simp only [hg, hact]
      cases hge : g.error <;> simp [hge] <;> split <;> rfl

/-- Witness for C8 on the spec scenario: swap X→Y where the builder throws
a no-route error. -/
theorem C8_no_route_is_recoverable_witness :
    strContainsSub "No swap routes found" "No swap routes found" = true ∧
    executeSwapHandler "POST" (some "X") (some "Y") (some 1000000) (some "WALLET")
        (Except.error "No swap routes found") =
      { status := 200, swapTransaction := none, message := none,
        error := some "No swap routes found. Please try a higher amount or a different token pair." } :=
  ⟨by decide,
   (C8_no_route_is_recoverable "POST" (some "X") (some "Y") (some 1000000) (some "WALLET")
      "No swap routes found" rfl (by decide) (by decide) (by decide) (by decide) (by decide)).1⟩

/-- C9: when `AGENT_PRIVATE_KEY` is absent from the environment (or empty)
and the module singleton has never been initialized, every well-formed
agent-signed execution request fails with HTTP 500 and the error
"Agent private key is required": no `executeSend` is dispatched and no
service is created, so the system cannot fall back to a default key. -/
theorem C9_missing_agent_key_fails_closed
    (openaiKeyEnv rpcUrlEnv agentKeyEnv : Option String)
    (amount : Option ℚ) (toAddress : Option String)
    (agentBalanceLamports : ℚ) (sendResult : Except String String)
    (hkey : jsTruthyStr agentKeyEnv = false)
    (ham : jsTruthyNum amount = true)
    (hto : jsTruthyStr toAddress = true) :
    executeTransactionHandler agentKeyEnv openaiKeyEnv rpcUrlEnv none "POST"
        amount toAddress agentBalanceLamports sendResult =
      ⟨{ status := 500, signature := none, error := some "Agent private key is required" },
       none, []⟩ := by
  simp [executeTransactionHandler, ham, hto, hkey]

/-- Witness for C9: a well-formed request with the key unset. -/
theorem C9_missing_agent_key_fails_closed_witness :
    jsTruthyStr (none : Option String) = false ∧
    executeTransactionHandler none (some "OPENAI") (some "RPC") none "POST"
        (some 1) (some "DEST") 0 (Except.ok "SIG") =
      ⟨{ status := 500, signature := none, error := some "Agent private key is required" },
       none, []⟩ :=
  ⟨by decide,
   C9_missing_agent_key_fails_closed (some "OPENAI") (some "RPC") none (some 1)
     (some "DEST") 0 (Except.ok "SIG") (by decide) (by decide) (by decide)⟩

/-- C2 counterexample: for the human-unit amount `4.1` — whose exact
smallest-unit value is `4.1 * 10^9 = 4100000000` — the lamports value the
code computes, `Math.floor` of the double-precision product on the double
nearest `4.1`, is not `4100000000`: floating-point truncation loses a
lamport. -/
theorem C2_lamports_not_exact_cex :
    solToLamports (roundF (mkRat 41 10)) ≠ 4100000000 ∧
    mkRat 41 10 * LAMPORTS_PER_SOL = (4100000000 : ℚ) := by
  constructor
  · rw [solToLamports_compute]
    decide
  · rw [Rat.mkRat_eq_div, LAMPORTS_PER_SOL]
    norm_num

/-- C2 amended: the lamports value is `Math.floor` of the double-precision
product `amount * LAMPORTS_PER_SOL`; this equals the exact integer
conversion for many amounts (for `0.1` it is exactly `10^8`) but not for
all: for `4.1` the instruction carries `4099999999` lamports, one short of
the exact `4.1 * 10^9 = 4100000000`. -/
theorem C2_lamports_floor_of_double_product :
    solToLamports (roundF (mkRat 1 10)) = 100000000 ∧
    solToLamports (roundF (mkRat 41 10)) = 4099999999 := by
  constructor
  · rw [solToLamports_compute]
    decide
  · rw [solToLamports_compute]
    decide
